import Mathlib

/-!
Shallow embedding of the PathSteer Guardian edge daemon control plane
(`src/pathsteerd/pathsteerd.c`) and a verification of its specification.

Modelling conventions:
* C `double` fields become `ℚ` (the verified code paths use only orderings and
  affine combinations of these values, which the rationals model exactly).
* C `int` / `int64_t` fields become `Int`; C integer division (which truncates
  toward zero) is `Int.tdiv`; the C `%` of the ring buffer is only applied to
  non-negative indices, where it agrees with the Euclidean `%` used here.
* External effects are explicit parameters: probe results, parsed helper
  output, route-verification outcomes, clock readings, chaos file contents.
* Logging, the status.json publisher and the last-command display strings are
  pure observability with no effect on control state; they are omitted, as are
  the sqlite handle, the GPS record and the raw JSON text parsing.
-/

namespace PathSteer

/-- Uplink kinds (`uplink_type_t`). -/
inductive UplinkType
  | lte
  | starlink
  | fiber
deriving DecidableEq

/-- Operating modes (`op_mode_t`). -/
inductive OpMode
  | training
  | tripwire
  | mirror
deriving DecidableEq

/-- System states (`sys_state_t`). -/
inductive SysState
  | normal
  | prepare
  | protect
  | switching
  | holding
deriving DecidableEq

/-- Trigger reasons (`trigger_t`). -/
inductive Trigger
  | none
  | rtt_step
  | probe_miss
  | link_down
  | rsrp_drop
  | sinr_drop
  | starlink_obstr
  | predicted
  | manual
deriving DecidableEq

/-- Recommendation strings written by `prediction_tick` ("NORMAL" / "PREPARE" / "PROTECT"). -/
inductive Rec
  | normal
  | prepare
  | protect
deriving DecidableEq

/-- A single probe result (`probe_t`). -/
structure Probe where
  rtt_ms : ℚ
  success : Bool
  timestamp_us : Int

/-- LTE metrics (`cellular_t`); the string identity fields not read by the
control logic are reduced to the carrier name. -/
structure Cellular where
  rsrp : ℚ
  rsrq : ℚ
  sinr : ℚ
  rssi : ℚ
  carrier : String
  connected : Bool
  timestamp_us : Int

/-- Starlink metrics (`starlink_t`). -/
structure Starlink where
  connected : Bool
  online : Bool
  latency_ms : ℚ
  drop_rate : ℚ
  downlink_mbps : ℚ
  uplink_mbps : ℚ
  obstructed : Bool
  obstruction_pct : ℚ
  obstruction_eta : Int
  timestamp_us : Int

/-- Complete per-uplink state (`uplink_t`), with the `HISTORY_SIZE = 100` ring
buffer as a function from positions and the monotone write counter
`history_idx`. -/
structure Uplink where
  name : String
  interface : String
  netns : String
  veth : String
  id : Fin 6
  type : UplinkType
  enabled : Bool
  available : Bool
  force_failed : Bool
  chaos_rtt : ℚ
  chaos_jitter : ℚ
  chaos_loss : ℚ
  is_active : Bool
  rtt_ms : ℚ
  rtt_baseline : ℚ
  loss_pct : ℚ
  jitter_ms : ℚ
  consec_fail : Int
  cellular : Cellular
  starlink : Starlink
  history : Fin 100 → Probe
  history_idx : Int
  risk_now : ℚ
  risk_ahead : ℚ
  confidence : ℚ

/-- Overall daemon status (`status_t`); `trigger_detail` and `run_id` are
display strings and omitted. -/
structure Status where
  mode : OpMode
  state : SysState
  last_trigger : Trigger
  active_uplink : Fin 6
  force_locked : Bool
  active_controller : Int
  dup_enabled : Bool
  dup_enabled_at_us : Int
  dup_engaged_at_us : Int
  protect_start_us : Int
  switch_start_us : Int
  last_clean_us : Int
  switches_this_window : Int
  hold_remaining_sec : Int
  clean_remaining_sec : Int
  flap_suppressed : Bool
  global_risk : ℚ
  recommendation : Rec

/-- Configuration (`config_t`), restricted to the fields the control logic
reads; `rsrp_drop_db` and `sinr_drop_db` are parsed with `json_get_int` in the
C code and therefore integral. -/
structure Config where
  rtt_step_ms : Int
  rtt_window_ms : Int
  probe_miss_count : Int
  probe_miss_window_ms : Int
  rsrp_drop_db : Int
  sinr_drop_db : Int
  preroll_ms : Int
  min_hold_sec : Int
  clean_exit_sec : Int
  gps_enabled : Bool
  pcap_enabled : Bool
  sample_rate_hz : Int

/-- The mutable global state relevant to control decisions: `g_status` and the
`g_uplinks` array. -/
structure World where
  status : Status
  uplinks : Fin 6 → Uplink

/-- `DUP_SETTLE_MS`: minimum milliseconds between `dup_enable` and a switch. -/
def DUP_SETTLE_MS : Int := 50

/-- The ring-buffer index `k % HISTORY_SIZE`. Every reachable use in the C code
has `k ≥ 0`, where the C remainder and the Euclidean remainder agree. -/
def ringIdx (k : Int) : Fin 100 :=
  ⟨(k % 100).toNat, by
    have h1 : 0 ≤ k % 100 := Int.emod_nonneg k (by norm_num)
    have h2 : k % 100 < 100 := Int.emod_lt_of_pos k (by norm_num)
    omega⟩

/-- `UPLINK_NAMES`. -/
def UPLINK_NAMES : Fin 6 → String := fun i =>
  if i.val = 0 then "cell_a" else if i.val = 1 then "cell_b"
  else if i.val = 2 then "sl_a" else if i.val = 3 then "sl_b"
  else if i.val = 4 then "fa" else "fb"

/-- `VIP_DEVS`: ns_vip device per uplink. -/
def VIP_DEVS : Fin 6 → String := fun i =>
  if i.val = 0 then "vip_cell_a" else if i.val = 1 then "vip_cell_b"
  else if i.val = 2 then "vip_sl_a" else if i.val = 3 then "vip_sl_b"
  else if i.val = 4 then "vip_fa" else "vip_fb"

/-- `VIP_GWS`: ns_vip gateway per uplink. -/
def VIP_GWS : Fin 6 → String := fun i =>
  if i.val = 0 then "10.201.10.18" else if i.val = 1 then "10.201.10.22"
  else if i.val = 2 then "10.201.10.10" else if i.val = 3 then "10.201.10.14"
  else if i.val = 4 then "10.201.10.2" else "10.201.10.6"

/-- The index order `0..UPLINK_COUNT-1` of every C `for` loop over uplinks. -/
def fin6 : List (Fin 6) := [0, 1, 2, 3, 4, 5]

/-- The backup-gateway lookup inside `dup_enable`: scan `VIP_DEVS` for
`dst_veth` and return the matching `VIP_GWS` entry. -/
def vip_gw_for (dst_veth : String) : Option String :=
  (fin6.find? fun i => VIP_DEVS i == dst_veth).map VIP_GWS

/-- `dup_enable(src_veth, dst_veth)`: when no gateway is found for `dst_veth`
it logs `dup_enable_fail` and returns -1 with no state change; otherwise the
nftables rule is installed (external effect) and the duplication flags are set:
`dup_enabled = true`, `dup_enabled_at_us = now`, `dup_engaged_at_us = 0`. -/
def dup_enable (src_veth dst_veth : String) (now : Int) (w : World) : World :=
  match vip_gw_for dst_veth with
  | Option.none => w
  | Option.some _ =>
    { w with status := { w.status with
        dup_enabled := true
        dup_enabled_at_us := now
        dup_engaged_at_us := 0 } }

/-- `dup_disable`: removes the nftables table (external effect) and clears only
the `dup_enabled` flag; the two timestamps are left untouched. -/
def dup_disable (w : World) : World :=
  { w with status := { w.status with dup_enabled := false } }

/-- The three most recent history entries read by the RTT-step check, i.e. the
probes at `(history_idx - 1 - i) % HISTORY_SIZE` for `i = 0, 1, 2`. -/
def recent_probes (u : Uplink) : List Probe :=
  [u.history (ringIdx (u.history_idx - 1)),
   u.history (ringIdx (u.history_idx - 2)),
   u.history (ringIdx (u.history_idx - 3))]

/-- The accumulation loop of the RTT-step check: sum of `rtt_ms` and count over
the successful probes among the last three samples. -/
def recent_stats (u : Uplink) : ℚ × Int :=
  (recent_probes u).foldl
    (fun acc p => if p.success = true then (acc.1 + p.rtt_ms, acc.2 + 1) else acc)
    (0, 0)

/-- `tripwire_check`: the fast-path predicate on the active uplink, first match
wins. The C null-pointer guard is unrepresentable here because the caller
always passes `&g_uplinks[active]`. -/
def tripwire_check (cfg : Config) (u : Uplink) : Trigger :=
  if u.enabled = false ∨ u.available = false then .link_down
  else if 5 ≤ u.history_idx ∧ 0 < (recent_stats u).2 ∧
      (cfg.rtt_step_ms : ℚ) ≤ (recent_stats u).1 / ((recent_stats u).2 : ℚ) - u.rtt_baseline
    then .rtt_step
  else if cfg.probe_miss_count ≤ u.consec_fail then .probe_miss
  else if u.type = .lte ∧ u.cellular.rsrp < -120 then .rsrp_drop
  else if u.type = .starlink ∧ (u.starlink.obstructed = true ∨
      (0 < u.starlink.obstruction_eta ∧ u.starlink.obstruction_eta < 5))
    then .starlink_obstr
  else .none

/-- The RTT list the specification's wording describes: the rtt values of the
successful samples among the three most recent history entries. -/
def recent_success_rtts (u : Uplink) : List ℚ :=
  ((recent_probes u).filter fun p => p.success).map Probe.rtt_ms

/-- The tripwire rule chain exactly as the specification phrases it (used to
compare against `tripwire_check`): LINK_DOWN for a disabled or unavailable
active uplink; RTT_STEP when the history is at least 5 deep and the mean RTT of
the recent successful samples exceeds the baseline by at least `rtt_step_ms`;
then PROBE_MISS, RSRP_DROP, STARLINK_OBSTR, and NONE. -/
def tripwire_check_spec (cfg : Config) (u : Uplink) : Trigger :=
  if u.enabled = false ∨ u.available = false then .link_down
  else if 5 ≤ u.history_idx ∧ recent_success_rtts u ≠ [] ∧
      u.rtt_baseline + (cfg.rtt_step_ms : ℚ) ≤
        (recent_success_rtts u).sum / ((recent_success_rtts u).length : ℚ)
    then .rtt_step
  else if cfg.probe_miss_count ≤ u.consec_fail then .probe_miss
  else if u.type = .lte ∧ u.cellular.rsrp < -120 then .rsrp_drop
  else if u.type = .starlink ∧ (u.starlink.obstructed = true ∨
      (0 < u.starlink.obstruction_eta ∧ u.starlink.obstruction_eta < 5))
    then .starlink_obstr
  else .none

/-- One step of the secondary scan of `tripwire_fire`:
`while (secondary != active) { if ok(secondary) break; secondary = (secondary+1)%6 }`.
Fuel 6 is enough to wrap once around the array. -/
def scan_go (ok : Fin 6 → Bool) (active : Fin 6) : Nat → Fin 6 → Fin 6
  | 0, cur => cur
  | n + 1, cur =>
    if cur = active then cur
    else if ok cur = true then cur
    else scan_go ok active n (cur + 1)

/-- The secondary chosen by `tripwire_fire`: first enabled-and-available uplink
after `active` in wrapping id order; `active` itself when no such uplink. -/
def find_secondary (ok : Fin 6 → Bool) (active : Fin 6) : Fin 6 :=
  scan_go ok active 6 (active + 1)

/-- The scan predicate: `g_uplinks[i].enabled && g_uplinks[i].available`. -/
def uplink_ok (w : World) (i : Fin 6) : Bool :=
  (w.uplinks i).enabled && (w.uplinks i).available

/-- `tripwire_fire`: enable duplication toward the scanned secondary when one
exists, then enter PROTECT, record the trigger and `protect_start_us`, and
reset the window counters. The trigger-detail string is display only. -/
def tripwire_fire (reason : Trigger) (now : Int) (w : World) : World :=
  let active := w.status.active_uplink
  let secondary := find_secondary (uplink_ok w) active
  let w1 := if secondary ≠ active then
      dup_enable (VIP_DEVS active) (VIP_DEVS secondary) now w
    else w
  { w1 with status := { w1.status with
      state := .protect
      last_trigger := reason
      protect_start_us := now
      switches_this_window := 0
      last_clean_us := 0
      flap_suppressed := false } }

/-- The arbitration score of one uplink (`select_best_uplink` loop body):
`100 - rtt_ms - 50*risk_now - 10*loss_pct`, plus 20 for an online unobstructed
Starlink, plus 15 for LTE with `rsrp > -90`. -/
def score (u : Uplink) : ℚ :=
  let s1 : ℚ := 100 - u.rtt_ms
  let s2 : ℚ := s1 - u.risk_now * 50
  let s3 : ℚ := s2 - u.loss_pct * 10
  let s4 : ℚ :=
    if u.type = .starlink ∧ u.starlink.online = true ∧ u.starlink.obstructed = false
    then s3 + 20 else s3
  if u.type = .lte ∧ -90 < u.cellular.rsrp then s4 + 15 else s4

/-- The scan loop of `select_best_uplink`: skip uplinks that are not enabled
and available; update `best` on a strictly greater score. -/
def sel_go (ups : Fin 6 → Uplink) : List (Fin 6) → Fin 6 × ℚ → Fin 6 × ℚ
  | [], acc => acc
  | i :: rest, acc =>
    if (ups i).enabled = true ∧ (ups i).available = true ∧ acc.2 < score (ups i) then
      sel_go ups rest (i, score (ups i))
    else
      sel_go ups rest acc

/-- `select_best_uplink`: the current active when `force_locked`, otherwise the
scan from `(active_uplink, -9999)` over ids 0..5. -/
def select_best_uplink (w : World) : Fin 6 :=
  if w.status.force_locked = true then w.status.active_uplink
  else (sel_go w.uplinks fin6 (w.status.active_uplink, -9999)).1

/-- `execute_switch`: `verify_ok` is the outcome of the Phase-2 route
verification (the `grep` over `ip route show default` in ns_vip). On failure
only `switch_fail` is logged and nothing is mutated; on success the `is_active`
flags flip, `active_uplink` moves, `switches_this_window` is credited and
`switch_start_us` is stamped (the controller return-route script is
fire-and-forget). -/
def execute_switch (target : Fin 6) (verify_ok : Bool) (now : Int) (w : World) : World :=
  if verify_ok = false then w
  else
    let old := w.status.active_uplink
    let ups1 := Function.update w.uplinks old { w.uplinks old with is_active := false }
    let ups2 := Function.update ups1 target { ups1 target with is_active := true }
    { w with
        uplinks := ups2
        status := { w.status with
          active_uplink := target
          switches_this_window := w.status.switches_this_window + 1
          switch_start_us := now } }

/-- The tail of `slowpath_arbitrate` after the duplication-settle gate:
preroll wait, flap suppression at three switches, best-uplink selection, and
the switch attempt followed by HOLDING. -/
def arb_rest (cfg : Config) (now : Int) (verify_ok : Bool) (w : World) : World :=
  if (now - w.status.protect_start_us).tdiv 1000 < cfg.preroll_ms then
    { w with status := { w.status with state := .switching } }
  else if 3 ≤ w.status.switches_this_window then
    { w with status := { w.status with flap_suppressed := true } }
  else
    let best := select_best_uplink w
    let w1 := if best ≠ w.status.active_uplink then execute_switch best verify_ok now w else w
    { w1 with status := { w1.status with state := .holding } }

/-- `slowpath_arbitrate`: while duplication is enabled but not yet engaged,
either mark it engaged once `DUP_SETTLE_MS` have elapsed since
`dup_enabled_at_us`, or stay in SWITCHING without switching. -/
def slowpath_arbitrate (cfg : Config) (now : Int) (verify_ok : Bool) (w : World) : World :=
  if w.status.dup_enabled = true ∧ w.status.dup_engaged_at_us = 0 then
    if DUP_SETTLE_MS ≤ (now - w.status.dup_enabled_at_us).tdiv 1000 then
      arb_rest cfg now verify_ok
        { w with status := { w.status with dup_engaged_at_us := now } }
    else
      { w with status := { w.status with state := .switching } }
  else arb_rest cfg now verify_ok w

/-- `protection_tick`: hold/clean countdown displays, the cleanliness test on
the active uplink, and the clean-exit transition back to NORMAL (tearing down
duplication unless in MIRROR mode). -/
def protection_tick (cfg : Config) (now : Int) (w : World) : World :=
  let elapsed := (now - w.status.protect_start_us).tdiv 1000000
  let hold0 := cfg.min_hold_sec - elapsed
  let hold := if hold0 < 0 then 0 else hold0
  let active := w.uplinks w.status.active_uplink
  if active.consec_fail = 0 ∧ active.rtt_ms < active.rtt_baseline + 30 ∧ active.loss_pct < 2 then
    let lc := if w.status.last_clean_us = 0 then now else w.status.last_clean_us
    let clean_sec := (now - lc).tdiv 1000000
    let cr0 := cfg.clean_exit_sec - clean_sec
    let cr := if cr0 < 0 then 0 else cr0
    let w1 := { w with status := { w.status with
        hold_remaining_sec := hold
        last_clean_us := lc
        clean_remaining_sec := cr } }
    if cfg.min_hold_sec ≤ elapsed ∧ cfg.clean_exit_sec ≤ clean_sec then
      let w2 := if w1.status.mode ≠ .mirror then dup_disable w1 else w1
      { w2 with status := { w2.status with state := .normal, last_trigger := .none } }
    else w1
  else
    { w with status := { w.status with
        hold_remaining_sec := hold
        last_clean_us := 0
        clean_remaining_sec := cfg.clean_exit_sec } }

/-- The per-uplink risk accumulation of `prediction_tick`, clamped to 1. -/
def risk_of (u : Uplink) : ℚ :=
  let r0 : ℚ := 0
  let r1 := if u.rtt_baseline * 1.5 < u.rtt_ms then r0 + 0.3 else r0
  let r2 := if 50 < u.loss_pct then r1 + 0.5
    else if 20 < u.loss_pct then r1 + 0.4
    else if 5 < u.loss_pct then r1 + 0.3
    else r1
  let r3 := if 0 < u.consec_fail then
      r2 + 0.2 * (if 5 < u.consec_fail then (5 : ℚ) else (u.consec_fail : ℚ))
    else r2
  let r4 := if u.type = .starlink then r3 + u.starlink.obstruction_pct * 0.01 else r3
  let r5 := if u.type = .lte ∧ u.cellular.rsrp < -110 then r4 + 0.4 else r4
  if 1 < r5 then 1 else r5

/-- `prediction_tick`: refresh `risk_now` of every enabled uplink, take the max
over the active ones as `global_risk`, and derive the recommendation. -/
def prediction_tick (w : World) : World :=
  let ups := fun i =>
    if (w.uplinks i).enabled = true then { w.uplinks i with risk_now := risk_of (w.uplinks i) }
    else w.uplinks i
  let max_risk := fin6.foldl
    (fun m i => if (ups i).is_active = true ∧ m < (ups i).risk_now then (ups i).risk_now else m) 0
  { w with
      uplinks := ups
      status := { w.status with
        global_risk := max_risk
        recommendation :=
          if 0.7 ≤ max_risk then .protect
          else if 0.4 ≤ max_risk then .prepare
          else .normal } }

/-- The loss window of `uplink_poll`: iterations taken (`total`) and successes
seen over the last up-to-20 history entries (`for i < 20 && i < history_idx`). -/
def loss_stats (h : Fin 100 → Probe) (idx : Int) : Int × Int :=
  ((List.range 20).map fun n => (n : Int)).foldl
    (fun acc i =>
      if i < idx then
        (acc.1 + 1, acc.2 + if (h (ringIdx (idx - 1 - i))).success = true then 1 else 0)
      else acc)
    (0, 0)

/-- `uplink_poll` for one uplink. External inputs: the probe result `rtt`
(failure when `rtt ≤ 0`, matching `success = rtt > 0`); the two jitter draws
`r1`, `r2`, each standing for `((double)rand()/RAND_MAX - 0.5) * 2 ∈ [-1, 1]`
(the C code draws separately for the history entry and for `rtt_ms`); and the
kind-specific records `cell2` / `sl2` that `cellular_poll` / `starlink_poll`
parse from their helper subprocesses (pass the old record to model the
cellular rate-limit skip or a helper failure). -/
def uplink_poll (rtt r1 r2 : ℚ) (cell2 : Cellular) (sl2 : Starlink) (now : Int)
    (u : Uplink) : Uplink :=
  if u.enabled = false then u
  else
    let idx := ringIdx u.history_idx
    let hist1 := Function.update u.history idx
      { rtt_ms := rtt + u.chaos_rtt + u.chaos_jitter * r1
        success := decide (0 < rtt)
        timestamp_us := now }
    let u1 := { u with history := hist1, history_idx := u.history_idx + 1 }
    let u2 :=
      if 0 < rtt then
        { u1 with
            rtt_ms := rtt + u1.chaos_rtt + u1.chaos_jitter * r2
            available := if u1.force_failed = false then true else u1.available
            consec_fail := 0
            rtt_baseline :=
              if u1.rtt_baseline = 0 then rtt else u1.rtt_baseline * 0.95 + rtt * 0.05 }
      else
        { u1 with
            consec_fail := u1.consec_fail + 1
            available := if 5 < u1.consec_fail + 1 then false else u1.available }
    let st := loss_stats u1.history u1.history_idx
    let u3 :=
      if 0 < st.1 then
        { u2 with loss_pct :=
            if 100 < 100 * ((st.1 - st.2 : Int) : ℚ) / (st.1 : ℚ) + u1.chaos_loss then 100
            else 100 * ((st.1 - st.2 : Int) : ℚ) / (st.1 : ℚ) + u1.chaos_loss }
      else u2
    let u4 := if u3.type = .lte then { u3 with cellular := cell2 } else u3
    if u4.type = .starlink then { u4 with starlink := sl2 } else u4

/-- A parsed per-uplink entry of the chaos JSON file. -/
structure ChaosEntry where
  rtt : ℚ
  jitter : ℚ
  loss : ℚ

/-- `chaos_read`: `vals = none` models a missing `/run/pathsteer/chaos.json`
(no state change — the C code returns before the reset loop); otherwise every
uplink's chaos scalars are reset and then overwritten with the values parsed
(by `atof`, hence any rational, negatives included) for uplinks named in the
file. -/
def chaos_read (vals : Option (Fin 6 → Option ChaosEntry)) (w : World) : World :=
  match vals with
  | Option.none => w
  | Option.some f =>
    { w with uplinks := fun i =>
        match f i with
        | Option.none => { w.uplinks i with chaos_rtt := 0, chaos_jitter := 0, chaos_loss := 0 }
        | Option.some c =>
          { w.uplinks i with chaos_rtt := c.rtt, chaos_jitter := c.jitter, chaos_loss := c.loss } }

/-- A parsed operator command, mirroring the prefixes `process_one_command`
recognises; a line matching no prefix (or a `mode:` with an unknown mode name,
which the C code treats as a mode command that changes nothing) is
`unknownCmd`. -/
inductive Cmd
  | modeCmd (m : OpMode)
  | forceAuto
  | forceName (name : String)
  | manualTrigger
  | c8000Cmd (ctrl : Int)
  | enableCmd (name : String)
  | disableCmd (name : String)
  | failCmd (name : String)
  | unfailCmd (name : String)
  | unknownCmd

/-- The `for` loops of the name-taking commands: first uplink whose
`UPLINK_NAMES` entry matches. -/
def find_uplink_by_name (name : String) : Option (Fin 6) :=
  fin6.find? fun i => UPLINK_NAMES i == name

/-- In-place mutation of one uplink of the array. -/
def update_uplink (w : World) (i : Fin 6) (f : Uplink → Uplink) : World :=
  { w with uplinks := Function.update w.uplinks i (f (w.uplinks i)) }

/-- `process_one_command` (the dispatcher behind the command queue).
`verify_ok` feeds any `execute_switch` the command performs; `c8000_ok` is the
exit status of the c8000-switch helper. The last-command triple and the
`cmd_result` log line are display only and omitted. -/
def process_one_command (cmd : Cmd) (verify_ok c8000_ok : Bool) (now : Int) (w : World) : World :=
  match cmd with
  | .modeCmd m =>
    let w1 := { w with status := { w.status with mode := m } }
    match m with
    | .training => dup_disable w1
    | .tripwire => w1
    | .mirror => dup_enable "br-lan" (w1.uplinks 1).veth now w1
  | .forceAuto =>
    let w1 := { w with status := { w.status with
        force_locked := false
        switches_this_window := 0
        state := .normal } }
    let best := select_best_uplink w1
    if best ≠ w1.status.active_uplink then execute_switch best verify_ok now w1 else w1
  | .forceName name =>
    match find_uplink_by_name name with
    | Option.none => w
    | Option.some i =>
      let w1 := update_uplink w i fun u => { u with force_failed := false, available := true }
      let w2 := execute_switch i verify_ok now w1
      { w2 with status := { w2.status with force_locked := true } }
  | .manualTrigger => tripwire_fire .manual now w
  | .c8000Cmd ctrl =>
    if c8000_ok = true then { w with status := { w.status with active_controller := ctrl } }
    else w
  | .enableCmd name =>
    match find_uplink_by_name name with
    | Option.none => w
    | Option.some i => update_uplink w i fun u => { u with enabled := true }
  | .disableCmd name =>
    match find_uplink_by_name name with
    | Option.none => w
    | Option.some i => update_uplink w i fun u => { u with enabled := false }
  | .failCmd name =>
    match find_uplink_by_name name with
    | Option.none => w
    | Option.some i =>
      update_uplink w i fun u =>
        { u with available := false, force_failed := true, consec_fail := 10 }
  | .unfailCmd name =>
    match find_uplink_by_name name with
    | Option.none => w
    | Option.some i =>
      update_uplink w i fun u =>
        { u with force_failed := false, available := true, consec_fail := 0 }
  | .unknownCmd => w

/-- The key/value content of the config file as far as the loader reads it;
`none` fields are absent keys (the `json_get_*` default applies). -/
structure ConfigJson where
  rtt_step_threshold_ms : Option Int
  rtt_step_window_ms : Option Int
  probe_miss_count : Option Int
  probe_miss_window_ms : Option Int
  rsrp_drop_threshold_db : Option Int
  sinr_drop_threshold_db : Option Int
  preroll_ms : Option Int
  min_hold_sec : Option Int
  clean_exit_sec : Option Int
  gps_enabled : Option Bool
  pcap_enabled : Option Bool
  sample_rate_hz : Option Int

/-- The statically zero-initialised `g_config` the daemon starts with. -/
def zero_config : Config :=
  { rtt_step_ms := 0, rtt_window_ms := 0, probe_miss_count := 0, probe_miss_window_ms := 0
    rsrp_drop_db := 0, sinr_drop_db := 0, preroll_ms := 0, min_hold_sec := 0
    clean_exit_sec := 0, gps_enabled := false, pcap_enabled := false, sample_rate_hz := 0 }

/-- `config_load`: `file = none` models `fopen` failing, where the C function
prints an error and returns -1 without touching `g_config`; otherwise the
fields are parsed with their compile-time defaults and 0 is returned. -/
def config_load (file : Option ConfigJson) (g : Config) : Config × Int :=
  match file with
  | Option.none => (g, -1)
  | Option.some j =>
    ({ rtt_step_ms := j.rtt_step_threshold_ms.getD 80
       rtt_window_ms := j.rtt_step_window_ms.getD 200
       probe_miss_count := j.probe_miss_count.getD 2
       probe_miss_window_ms := j.probe_miss_window_ms.getD 300
       rsrp_drop_db := j.rsrp_drop_threshold_db.getD 8
       sinr_drop_db := j.sinr_drop_threshold_db.getD 6
       preroll_ms := j.preroll_ms.getD 500
       min_hold_sec := j.min_hold_sec.getD 3
       clean_exit_sec := j.clean_exit_sec.getD 2
       gps_enabled := j.gps_enabled.getD true
       pcap_enabled := j.pcap_enabled.getD true
       sample_rate_hz := j.sample_rate_hz.getD 10 }, 0)

/-- The startup path of `main` around `config_load`: the loader's return value
is discarded (the call result is never inspected), so startup proceeds to the
main loop whether or not the config file opened, and on loop termination the
process returns exit code 0. The components are: the config the loop runs
with, whether the main loop is reached, and the exit code of `main`. -/
def main_startup (file : Option ConfigJson) : Config × Bool × Int :=
  let r := config_load file zero_config
  (r.1, true, 0)

/-- A zeroed cellular record (from the `memset` in `uplinks_init`). -/
def zero_cellular : Cellular :=
  { rsrp := 0, rsrq := 0, sinr := 0, rssi := 0, carrier := "", connected := false
    timestamp_us := 0 }

/-- A zeroed starlink record. -/
def zero_starlink : Starlink :=
  { connected := false, online := false, latency_ms := 0, drop_rate := 0, downlink_mbps := 0
    uplink_mbps := 0, obstructed := false, obstruction_pct := 0, obstruction_eta := 0
    timestamp_us := 0 }

/-- A zeroed uplink record: the state of every array slot right after
`memset(g_uplinks, 0, ...)`. -/
def zero_uplink : Uplink :=
  { name := "", interface := "", netns := "", veth := "", id := 0, type := .lte
    enabled := false, available := false, force_failed := false
    chaos_rtt := 0, chaos_jitter := 0, chaos_loss := 0, is_active := false
    rtt_ms := 0, rtt_baseline := 0, loss_pct := 0, jitter_ms := 0, consec_fail := 0
    cellular := zero_cellular, starlink := zero_starlink
    history := fun _ => { rtt_ms := 0, success := false, timestamp_us := 0 }
    history_idx := 0, risk_now := 0, risk_ahead := 0, confidence := 0 }

/-- `uplinks_init`: the six statically configured uplinks; only `cell_a` gets
`is_active = true`. -/
def uplinks_init : Fin 6 → Uplink := fun i =>
  if i.val = 0 then
    { zero_uplink with
      id := 0, type := .lte, name := "cell_a", interface := "wwan0"
      netns := "ns_cell_a", veth := "veth_cell_a"
      cellular := { zero_cellular with carrier := "T-Mobile" }
      enabled := true, is_active := true }
  else if i.val = 1 then
    { zero_uplink with
      id := 1, type := .lte, name := "cell_b", interface := "wwan1"
      netns := "ns_cell_b", veth := "veth_cell_b"
      cellular := { zero_cellular with carrier := "AT&T" }, enabled := true }
  else if i.val = 2 then
    { zero_uplink with
      id := 2, type := .starlink, name := "sl_a", interface := "enp3s0"
      netns := "ns_sl_a", veth := "veth_sl_a", enabled := true }
  else if i.val = 3 then
    { zero_uplink with
      id := 3, type := .starlink, name := "sl_b", interface := "enp4s0"
      netns := "ns_sl_b", veth := "veth_sl_b", enabled := true }
  else if i.val = 4 then
    { zero_uplink with
      id := 4, type := .fiber, name := "fa", interface := "enp1s0"
      netns := "ns_fa", veth := "veth_fa", enabled := true }
  else
    { zero_uplink with
      id := 5, type := .fiber, name := "fb", interface := "enp2s0"
      netns := "ns_fb", veth := "veth_fb", enabled := true }

/-- The statically zero-initialised `g_status` (enum value 0 is TRAINING /
NORMAL / no trigger / uplink 0). -/
def zero_status : Status :=
  { mode := .training, state := .normal, last_trigger := .none, active_uplink := 0
    force_locked := false, active_controller := 0, dup_enabled := false
    dup_enabled_at_us := 0, dup_engaged_at_us := 0, protect_start_us := 0
    switch_start_us := 0, last_clean_us := 0, switches_this_window := 0
    hold_remaining_sec := 0, clean_remaining_sec := 0, flap_suppressed := false
    global_risk := 0, recommendation := .normal }

/-- The world right before the main loop: `uplinks_init`, then the per-uplink
`"enabled": false` overrides read back from the config file, then the initial
mode/state assignments in `main` (`MODE_TRIPWIRE`, `STATE_NORMAL`,
`active_uplink` already 0 from `uplinks_init`). -/
def init_world (cfgEnabled : Fin 6 → Bool) : World :=
  { status := { zero_status with mode := .tripwire, state := .normal }
    uplinks := fun i =>
      let u := uplinks_init i
      if cfgEnabled i = false then { u with enabled := false } else u }

/-- One transition of the daemon: each constructor is one of the operations
the main loop, the command processor or the shutdown path performs on the
shared state, with its external inputs quantified. -/
inductive Step : World → World → Prop
  | poll (i : Fin 6) (rtt r1 r2 : ℚ) (cell2 : Cellular) (sl2 : Starlink) (now : Int)
      (w : World) :
      Step w (update_uplink w i (uplink_poll rtt r1 r2 cell2 sl2 now))
  | chaos (vals : Option (Fin 6 → Option ChaosEntry)) (w : World) :
      Step w (chaos_read vals w)
  | predict (w : World) : Step w (prediction_tick w)
  | fire (reason : Trigger) (now : Int) (w : World) : Step w (tripwire_fire reason now w)
  | arbitrate (cfg : Config) (now : Int) (verify_ok : Bool) (w : World) :
      Step w (slowpath_arbitrate cfg now verify_ok w)
  | protect (cfg : Config) (now : Int) (w : World) : Step w (protection_tick cfg now w)
  | command (cmd : Cmd) (verify_ok c8000_ok : Bool) (now : Int) (w : World) :
      Step w (process_one_command cmd verify_ok c8000_ok now w)
  | dupDisable (w : World) : Step w (dup_disable w)

/-- States the daemon can reach from startup under some schedule of ticks,
probes, commands and external outcomes. -/
def Reachable (cfgEnabled : Fin 6 → Bool) (w : World) : Prop :=
  Relation.ReflTransGen Step (init_world cfgEnabled) w

/-! ## Frame lemmas -/

/-- `execute_switch` never touches the duplication flags or timers. -/
theorem execute_switch_dup_frame (t : Fin 6) (v : Bool) (now : Int) (w : World) :
    (execute_switch t v now w).status.dup_enabled = w.status.dup_enabled ∧
    (execute_switch t v now w).status.dup_enabled_at_us = w.status.dup_enabled_at_us ∧
    (execute_switch t v now w).status.dup_engaged_at_us = w.status.dup_engaged_at_us := by
  unfold execute_switch
  split <;> exact ⟨rfl, rfl, rfl⟩

/-- A failed verification makes `execute_switch` a no-op. -/
theorem execute_switch_fail (t : Fin 6) (now : Int) (w : World) :
    execute_switch t false now w = w := rfl

/-- `arb_rest` never touches the duplication flags or timers. -/
theorem arb_rest_dup_frame (cfg : Config) (now : Int) (v : Bool) (w : World) :
    (arb_rest cfg now v w).status.dup_enabled = w.status.dup_enabled ∧
    (arb_rest cfg now v w).status.dup_enabled_at_us = w.status.dup_enabled_at_us ∧
    (arb_rest cfg now v w).status.dup_engaged_at_us = w.status.dup_engaged_at_us := by
  unfold arb_rest
  split
  · exact ⟨rfl, rfl, rfl⟩
  split
  · exact ⟨rfl, rfl, rfl⟩
  · simp only []
    split
    · exact (execute_switch_dup_frame _ v now w)
    · exact ⟨rfl, rfl, rfl⟩

/-- With verification failing, the arbitration tail past the preroll and flap
gates only advances the state to HOLDING. -/
theorem arb_rest_verify_fail (cfg : Config) (now : Int) (w : World)
    (hpre : ¬ (now - w.status.protect_start_us).tdiv 1000 < cfg.preroll_ms)
    (hflap : ¬ 3 ≤ w.status.switches_this_window) :
    arb_rest cfg now false w = { w with status := { w.status with state := .holding } } := by
  unfold arb_rest
  rw [if_neg hpre, if_neg hflap]
  have hes : ∀ b : Fin 6, execute_switch b false now w = w := fun _ => rfl
  simp [hes]

/-! ## Claim theorems -/

/-- Claim C5 — the specification says a missing config file is fatal with a
non-zero exit code. In the code, `config_load` does return -1 when `fopen`
fails, but `main` discards that return value: startup continues into the main
loop with the zeroed config (whose `sample_rate_hz = 0` is then used as a
divisor for the probe interval), and `main`'s own exit code is 0. -/
theorem claim_C5 :
    (config_load Option.none zero_config).2 = -1 ∧
    (main_startup Option.none).2.1 = true ∧
    (main_startup Option.none).2.2 = 0 ∧
    (main_startup Option.none).1.sample_rate_hz = 0 :=
  ⟨rfl, rfl, rfl, rfl⟩

/-- Claim C9 (amended) — `dup_enable` then `dup_disable` leaves
`dup_enabled = false` and `dup_engaged_at_us = 0` (the value `dup_enable`
wrote), but `dup_enabled_at_us` keeps the enable timestamp: `dup_disable`
clears no timestamps. Two `dup_enable` calls with the same arguments equal a
single call at the later time. -/
theorem claim_C9 (src dst : String) (t1 t2 : Int) (w : World)
    (h : (vip_gw_for dst).isSome = true) :
    ((dup_disable (dup_enable src dst t1 w)).status.dup_enabled = false ∧
     (dup_disable (dup_enable src dst t1 w)).status.dup_engaged_at_us = 0 ∧
     (dup_disable (dup_enable src dst t1 w)).status.dup_enabled_at_us = t1) ∧
    dup_enable src dst t2 (dup_enable src dst t1 w) = dup_enable src dst t2 w := by
  obtain ⟨gw, hgw⟩ := Option.isSome_iff_exists.mp h
  refine ⟨?_, ?_⟩
  · simp [dup_enable, dup_disable, hgw]
  · simp [dup_enable, hgw]

/-- Witness for C9 at the fiber pair and times 5 and 7. -/
theorem claim_C9_witness :
    ((dup_disable (dup_enable "vip_fb" "vip_fa" 5 (init_world fun _ => true))).status.dup_enabled
        = false ∧
     (dup_disable (dup_enable "vip_fb" "vip_fa" 5
        (init_world fun _ => true))).status.dup_engaged_at_us = 0 ∧
     (dup_disable (dup_enable "vip_fb" "vip_fa" 5
        (init_world fun _ => true))).status.dup_enabled_at_us = 5) ∧
    dup_enable "vip_fb" "vip_fa" 7 (dup_enable "vip_fb" "vip_fa" 5 (init_world fun _ => true)) =
      dup_enable "vip_fb" "vip_fa" 7 (init_world fun _ => true) :=
  claim_C9 "vip_fb" "vip_fa" 5 7 (init_world fun _ => true) (by decide)

/-- Counterexample to C9 as stated: after `dup_enable` at time 1000000 and
`dup_disable`, the timestamp `dup_enabled_at_us` is NOT cleared to zero. -/
theorem claim_C9_counterexample :
    (dup_disable (dup_enable "vip_fb" "vip_fa" 1000000
        (init_world fun _ => true))).status.dup_enabled_at_us = 1000000 ∧
    (1000000 : Int) ≠ 0 :=
  ⟨rfl, by decide⟩

/-- Claim C1 — while duplication is enabled and not yet engaged and fewer than
`DUP_SETTLE_MS` milliseconds have elapsed since `dup_enabled_at_us`, the
arbitration tick only sets the state to SWITCHING (no switch, nothing else
changes); and on any arbitration tick with duplication enabled, the switch
counter can only move when `dup_engaged_at_us` ends up non-zero. -/
theorem claim_C1 (cfg : Config) (now : Int) (verify_ok : Bool) (w : World)
    (hd : w.status.dup_enabled = true) (hnow : 0 < now) :
    (w.status.dup_engaged_at_us = 0 →
      (now - w.status.dup_enabled_at_us).tdiv 1000 < DUP_SETTLE_MS →
      slowpath_arbitrate cfg now verify_ok w =
        { w with status := { w.status with state := .switching } }) ∧
    ((slowpath_arbitrate cfg now verify_ok w).status.switches_this_window ≠
        w.status.switches_this_window →
      (slowpath_arbitrate cfg now verify_ok w).status.dup_engaged_at_us ≠ 0) := by
  constructor
  · intro h0 hage
    unfold slowpath_arbitrate
    rw [if_pos ⟨hd, h0⟩, if_neg (not_le.mpr hage)]
  · intro hsw
    by_cases h0 : w.status.dup_engaged_at_us = 0
    · by_cases hage : DUP_SETTLE_MS ≤ (now - w.status.dup_enabled_at_us).tdiv 1000
      · unfold slowpath_arbitrate
        rw [if_pos ⟨hd, h0⟩, if_pos hage]
        rw [(arb_rest_dup_frame cfg now verify_ok _).2.2]
        show now ≠ 0
        omega
      · exfalso
        apply hsw
        unfold slowpath_arbitrate
        rw [if_pos ⟨hd, h0⟩, if_neg hage]
    · unfold slowpath_arbitrate
      rw [if_neg (fun hc => h0 hc.2)]
      rw [(arb_rest_dup_frame cfg now verify_ok w).2.2]
      exact h0

/-- A default configuration (all `json_get_*` defaults). -/
def cfg0 : Config :=
  { rtt_step_ms := 80, rtt_window_ms := 200, probe_miss_count := 2, probe_miss_window_ms := 300
    rsrp_drop_db := 8, sinr_drop_db := 6, preroll_ms := 500, min_hold_sec := 3
    clean_exit_sec := 2, gps_enabled := true, pcap_enabled := true, sample_rate_hz := 10 }

/-- A world in which duplication was just enabled (at 1000 µs) and has not yet
engaged. -/
def w_dup : World := dup_enable "vip_cell_a" "vip_cell_b" 1000 (init_world fun _ => true)

/-- Witness for C1 at `w_dup` and `now = 2000` (1 ms after enable, inside the
settle window). -/
theorem claim_C1_witness :
    slowpath_arbitrate cfg0 2000 true w_dup =
      { w_dup with status := { w_dup.status with state := .switching } } ∧
    ((slowpath_arbitrate cfg0 2000 true w_dup).status.switches_this_window ≠
        w_dup.status.switches_this_window →
      (slowpath_arbitrate cfg0 2000 true w_dup).status.dup_engaged_at_us ≠ 0) :=
  ⟨(claim_C1 cfg0 2000 true w_dup rfl (by decide)).1 rfl (by decide),
   (claim_C1 cfg0 2000 true w_dup rfl (by decide)).2⟩

/-- Claim C3 — when verification fails, `execute_switch` changes nothing
(`active_uplink`, the `is_active` flags, `switches_this_window` and
`switch_start_us` are all as before), while the arbitration pass that invoked
it still sets the state to HOLDING. -/
theorem claim_C3 (cfg : Config) (now : Int) (w : World) (t : Fin 6)
    (hpre : ¬ (now - w.status.protect_start_us).tdiv 1000 < cfg.preroll_ms)
    (hflap : ¬ 3 ≤ w.status.switches_this_window)
    (hgate : ¬ (w.status.dup_enabled = true ∧ w.status.dup_engaged_at_us = 0 ∧
        (now - w.status.dup_enabled_at_us).tdiv 1000 < DUP_SETTLE_MS)) :
    execute_switch t false now w = w ∧
    ((slowpath_arbitrate cfg now false w).status.state = .holding ∧
     (slowpath_arbitrate cfg now false w).status.active_uplink = w.status.active_uplink ∧
     (slowpath_arbitrate cfg now false w).uplinks = w.uplinks ∧
     (slowpath_arbitrate cfg now false w).status.switches_this_window =
        w.status.switches_this_window ∧
     (slowpath_arbitrate cfg now false w).status.switch_start_us =
        w.status.switch_start_us) := by
  refine ⟨execute_switch_fail t now w, ?_⟩
  by_cases hg : w.status.dup_enabled = true ∧ w.status.dup_engaged_at_us = 0
  · have hage : DUP_SETTLE_MS ≤ (now - w.status.dup_enabled_at_us).tdiv 1000 := by
      by_contra hlt
      exact hgate ⟨hg.1, hg.2, not_le.mp hlt⟩
    have h2 := arb_rest_verify_fail cfg now
      { w with status := { w.status with dup_engaged_at_us := now } } hpre hflap
    unfold slowpath_arbitrate
    rw [if_pos hg, if_pos hage, h2]
    exact ⟨rfl, rfl, rfl, rfl, rfl⟩
  · unfold slowpath_arbitrate
    rw [if_neg hg, arb_rest_verify_fail cfg now w hpre hflap]
    exact ⟨rfl, rfl, rfl, rfl, rfl⟩

/-- Witness for C3 at the initial world, 1 s into a protection window. -/
theorem claim_C3_witness :
    execute_switch 0 false 1000000 (init_world fun _ => true) = (init_world fun _ => true) ∧
    ((slowpath_arbitrate cfg0 1000000 false (init_world fun _ => true)).status.state =
        .holding ∧
     (slowpath_arbitrate cfg0 1000000 false (init_world fun _ => true)).status.active_uplink =
        (init_world fun _ => true).status.active_uplink ∧
     (slowpath_arbitrate cfg0 1000000 false (init_world fun _ => true)).uplinks =
        (init_world fun _ => true).uplinks ∧
     (slowpath_arbitrate cfg0 1000000 false
        (init_world fun _ => true)).status.switches_this_window =
        (init_world fun _ => true).status.switches_this_window ∧
     (slowpath_arbitrate cfg0 1000000 false (init_world fun _ => true)).status.switch_start_us =
        (init_world fun _ => true).status.switch_start_us) :=
  claim_C3 cfg0 1000000 (init_world fun _ => true) 0 (by decide) (by decide) (by decide)

/-! ## Tripwire equivalence (C6) -/

/-- The RTT accumulation fold computes the sum and count of the successful
probes of its input list. -/
theorem stats_fold_spec (L : List Probe) (s0 : ℚ) (n0 : Int) :
    L.foldl (fun acc p => if p.success = true then (acc.1 + p.rtt_ms, acc.2 + 1) else acc)
        (s0, n0) =
      (s0 + (((L.filter fun p => p.success).map Probe.rtt_ms).sum),
       n0 + (((L.filter fun p => p.success).length : Int))) := by
  induction L generalizing s0 n0 with
  | nil => simp
  | cons p rest ih =>
    by_cases hp : p.success = true
    · simp only [List.foldl, if_pos hp, ih, List.filter_cons, hp, if_true, List.map_cons,
        List.sum_cons, List.length_cons]
      refine Prod.ext ?_ ?_ <;> push_cast <;> ring
    · simp only [List.foldl, if_neg hp, ih, List.filter_cons, hp]
      simp [hp]

/-- The sum component of `recent_stats` is the sum of the spec's RTT list. -/
theorem recent_stats_fst (u : Uplink) :
    (recent_stats u).1 = (recent_success_rtts u).sum := by
  unfold recent_stats recent_success_rtts
  rw [stats_fold_spec]
  simp

/-- The count component of `recent_stats` is the length of the spec's RTT
list. -/
theorem recent_stats_snd (u : Uplink) :
    (recent_stats u).2 = ((recent_success_rtts u).length : Int) := by
  unfold recent_stats recent_success_rtts
  rw [stats_fold_spec]
  simp

/-- The loop form and the spec's phrasing of the RTT-step condition agree. -/
theorem rtt_cond_iff (cfg : Config) (u : Uplink) :
    (0 < (recent_stats u).2 ∧
      (cfg.rtt_step_ms : ℚ) ≤ (recent_stats u).1 / ((recent_stats u).2 : ℚ) - u.rtt_baseline) ↔
    (recent_success_rtts u ≠ [] ∧
      u.rtt_baseline + (cfg.rtt_step_ms : ℚ) ≤
        (recent_success_rtts u).sum / ((recent_success_rtts u).length : ℚ)) := by
  rw [recent_stats_fst, recent_stats_snd]
  have h1 : ((0 : Int) < ((recent_success_rtts u).length : Int)) ↔
      recent_success_rtts u ≠ [] := by
    rw [Int.natCast_pos, List.length_pos]
  have h2 : ((((recent_success_rtts u).length : Int)) : ℚ) =
      (((recent_success_rtts u).length : ℚ)) := by
    push_cast
    ring
  rw [h2, h1, le_sub_iff_add_le']

/-- Claim C6 — `tripwire_check` is the first-match-wins rule chain the
specification states, clause for clause and in the same order. -/
theorem claim_C6 (cfg : Config) (u : Uplink) :
    tripwire_check cfg u = tripwire_check_spec cfg u := by
  unfold tripwire_check tripwire_check_spec
  exact if_congr Iff.rfl rfl (if_congr (and_congr Iff.rfl (rtt_cond_iff cfg u)) rfl
    (if_congr Iff.rfl rfl (if_congr Iff.rfl rfl (if_congr Iff.rfl rfl rfl))))

/-! ## Best-uplink selection (C7) -/

/-- Eligibility in the selection loop: enabled and available. -/
@[reducible] def elig (ups : Fin 6 → Uplink) (i : Fin 6) : Prop :=
  (ups i).enabled = true ∧ (ups i).available = true

/-- Numeral evaluation helpers for `Fin 6` indices. -/
theorem fin6_val_two : ((2 : Fin 6)).val = 2 := rfl

theorem fin6_val_three : ((3 : Fin 6)).val = 3 := rfl

theorem fin6_val_four : ((4 : Fin 6)).val = 4 := rfl

theorem fin6_val_five : ((5 : Fin 6)).val = 5 := rfl

/-- The running best score never decreases along the scan. -/
theorem sel_go_mono (ups : Fin 6 → Uplink) (l : List (Fin 6)) (acc : Fin 6 × ℚ) :
    acc.2 ≤ (sel_go ups l acc).2 := by
  induction l generalizing acc with
  | nil => exact le_refl _
  | cons i rest ih =>
    unfold sel_go
    split_ifs with h
    · exact le_trans (le_of_lt h.2.2) (ih _)
    · exact ih _

/-- Every eligible scanned uplink's score is bounded by the final best score. -/
theorem sel_go_ub (ups : Fin 6 → Uplink) (l : List (Fin 6)) (acc : Fin 6 × ℚ) :
    ∀ j ∈ l, elig ups j → score (ups j) ≤ (sel_go ups l acc).2 := by
  induction l generalizing acc with
  | nil => intro j hj; exact absurd hj (List.not_mem_nil j)
  | cons i rest ih =>
    intro j hj hje
    unfold sel_go
    rcases List.mem_cons.mp hj with hji | hjr
    · subst hji
      split_ifs with h
      · exact sel_go_mono ups rest _
      · have hng : ¬ acc.2 < score (ups j) := fun hlt => h ⟨hje.1, hje.2, hlt⟩
        exact le_trans (not_lt.mp hng) (sel_go_mono ups rest acc)
    · split_ifs with h
      · exact ih _ j hjr hje
      · exact ih _ j hjr hje

/-- Either the scan never updates the accumulator, or it returns an eligible
uplink whose score is the final best score, strictly above the initial one. -/
theorem sel_go_cases (ups : Fin 6 → Uplink) (l : List (Fin 6)) (acc : Fin 6 × ℚ) :
    sel_go ups l acc = acc ∨
    (elig ups (sel_go ups l acc).1 ∧
      score (ups (sel_go ups l acc).1) = (sel_go ups l acc).2 ∧
      acc.2 < (sel_go ups l acc).2) := by
  induction l generalizing acc with
  | nil => exact Or.inl rfl
  | cons i rest ih =>
    unfold sel_go
    split_ifs with h
    · rcases ih ((i, score (ups i))) with heq | hr
      · rw [heq]
        exact Or.inr ⟨⟨h.1, h.2.1⟩, rfl, h.2.2⟩
      · exact Or.inr ⟨hr.1, hr.2.1, lt_trans h.2.2 hr.2.2⟩
    · exact ih acc

/-- First-wins tie-breaking: an eligible uplink scanned strictly before the
returned one (in the ascending scan order) has a strictly smaller score. -/
theorem sel_go_tie (ups : Fin 6 → Uplink) (l : List (Fin 6)) (acc : Fin 6 × ℚ)
    (hpw : l.Pairwise (· < ·)) :
    ∀ j ∈ l, elig ups j → acc.2 < score (ups j) → j < (sel_go ups l acc).1 →
      score (ups j) < (sel_go ups l acc).2 := by
  induction l generalizing acc with
  | nil => intro j hj; exact absurd hj (List.not_mem_nil j)
  | cons i rest ih =>
    intro j hj hje hacc hlt
    unfold sel_go at hlt ⊢
    rcases List.mem_cons.mp hj with hji | hjr
    · subst hji
      rw [if_pos ⟨hje.1, hje.2, hacc⟩] at hlt ⊢
      rcases sel_go_cases ups rest ((j, score (ups j))) with heq | hr
      · rw [heq] at hlt
        exact absurd hlt (lt_irrefl j)
      · exact hr.2.2
    · split_ifs at hlt ⊢ with h
      · rcases le_or_lt (score (ups j)) (score (ups i)) with hle | hgt
        · rcases sel_go_cases ups rest ((i, score (ups i))) with heq | hr
          · rw [heq] at hlt
            have hij : i < j := (List.pairwise_cons.mp hpw).1 j hjr
            exact absurd hlt (not_lt.mpr (le_of_lt hij))
          · exact lt_of_le_of_lt hle hr.2.2
        · exact ih _ (List.pairwise_cons.mp hpw).2 j hjr hje hgt hlt
      · exact ih _ (List.pairwise_cons.mp hpw).2 j hjr hje hacc hlt

/-- Claim C7 (amended) — with `force_locked` the current active is returned
unconditionally. Otherwise, whenever some uplink is eligible with a score
above the -9999 sentinel, the returned uplink is eligible, its score is
maximal among the eligible, and ties are resolved to the LOWEST uplink id
(the first scanned), not to the current active: any eligible uplink with a
smaller id than the returned one scores strictly less. -/
theorem claim_C7 (w : World) :
    (w.status.force_locked = true → select_best_uplink w = w.status.active_uplink) ∧
    (w.status.force_locked = false → ∀ j : Fin 6,
      elig w.uplinks j → -9999 < score (w.uplinks j) →
        elig w.uplinks (select_best_uplink w) ∧
        score (w.uplinks j) ≤ score (w.uplinks (select_best_uplink w)) ∧
        (j < select_best_uplink w →
          score (w.uplinks j) < score (w.uplinks (select_best_uplink w)))) := by
  constructor
  · intro h
    unfold select_best_uplink
    rw [if_pos h]
  · intro h j hje hj9
    have hsel : select_best_uplink w =
        (sel_go w.uplinks fin6 ((w.status.active_uplink, -9999))).1 := by
      unfold select_best_uplink
      rw [if_neg (by simp [h])]
    have hmem : j ∈ fin6 := by fin_cases j <;> simp [fin6]
    rcases sel_go_cases w.uplinks fin6 ((w.status.active_uplink, -9999)) with heq | hr
    · exfalso
      have hub := sel_go_ub w.uplinks fin6 ((w.status.active_uplink, -9999)) j hmem hje
      rw [heq] at hub
      exact absurd hub (not_le.mpr hj9)
    · rw [hsel]
      refine ⟨hr.1, ?_, ?_⟩
      · rw [hr.2.1]
        exact sel_go_ub w.uplinks fin6 ((w.status.active_uplink, -9999)) j hmem hje
      · intro hlt
        rw [hr.2.1]
        exact sel_go_tie w.uplinks fin6 ((w.status.active_uplink, -9999)) (by decide)
          j hmem hje hj9 hlt

/-- A world in which the active uplink is `cell_b` (id 1) and `cell_a` and
`cell_b` are both eligible with identical metrics, hence identical scores. -/
def c7_world : World :=
  { status := { (init_world fun _ => true).status with active_uplink := 1 }
    uplinks := fun i =>
      if i.val ≤ 1 then { (init_world fun _ => true).uplinks i with available := true }
      else (init_world fun _ => true).uplinks i }

/-- Witness for C7 at `c7_world` and the eligible uplink `cell_b`. -/
theorem claim_C7_witness :
    elig c7_world.uplinks (select_best_uplink c7_world) ∧
    score (c7_world.uplinks 1) ≤ score (c7_world.uplinks (select_best_uplink c7_world)) ∧
    ((1 : Fin 6) < select_best_uplink c7_world →
      score (c7_world.uplinks 1) < score (c7_world.uplinks (select_best_uplink c7_world))) :=
  (claim_C7 c7_world).2 rfl 1 (by decide)
    (by norm_num [score, c7_world, init_world, uplinks_init, zero_uplink, zero_cellular, zero_starlink])

/-- Counterexample to C7 as stated: in `c7_world` the active uplink `cell_b`
ties `cell_a` for the highest score, yet selection returns `cell_a`, not the
current active — the strictly-greater comparison resolves ties to the first
uplink scanned (lowest id), because `best_score` starts at the -9999 sentinel
rather than at the active uplink's score. -/
theorem claim_C7_counterexample :
    score (c7_world.uplinks 0) = score (c7_world.uplinks 1) ∧
    (c7_world.uplinks 0).enabled = true ∧ (c7_world.uplinks 0).available = true ∧
    (c7_world.uplinks 1).enabled = true ∧ (c7_world.uplinks 1).available = true ∧
    c7_world.status.force_locked = false ∧
    c7_world.status.active_uplink = 1 ∧
    select_best_uplink c7_world = 0 ∧
    select_best_uplink c7_world ≠ c7_world.status.active_uplink := by
  have hsel : select_best_uplink c7_world = 0 := by
    norm_num [select_best_uplink, sel_go, fin6, score, c7_world, init_world, uplinks_init,
      zero_uplink, zero_cellular, zero_starlink, zero_status, fin6_val_two, fin6_val_three,
      fin6_val_four, fin6_val_five]
  have hact : c7_world.status.active_uplink = 1 := by decide
  refine ⟨?_, by decide, by decide, by decide, by decide, by decide, hact, hsel, ?_⟩
  · norm_num [score, c7_world, init_world, uplinks_init, zero_uplink, zero_cellular, zero_starlink]
  · rw [hsel, hact]
    decide

/-! ## Flap suppression (C4) -/

/-- A protection-window evolution driven by arbitration ticks only: fold of
`slowpath_arbitrate` over a schedule of (clock, verify outcome) pairs. -/
def arb_seq (cfg : Config) (ticks : List (Int × Bool)) (w : World) : World :=
  ticks.foldl (fun w t => slowpath_arbitrate cfg t.1 t.2 w) w

/-- One `execute_switch` either leaves the window counter alone or credits
exactly one switch. -/
theorem execute_switch_switches (t : Fin 6) (v : Bool) (now : Int) (w : World) :
    (execute_switch t v now w).status.switches_this_window =
        w.status.switches_this_window ∨
    (execute_switch t v now w).status.switches_this_window =
        w.status.switches_this_window + 1 := by
  unfold execute_switch
  split_ifs with h
  · exact Or.inl rfl
  · exact Or.inr rfl

/-- The arbitration tail leaves the window counter alone, or — only when it is
still below 3 — credits exactly one switch. -/
theorem arb_rest_switches (cfg : Config) (now : Int) (v : Bool) (w : World) :
    (arb_rest cfg now v w).status.switches_this_window = w.status.switches_this_window ∨
    (¬ 3 ≤ w.status.switches_this_window ∧
      (arb_rest cfg now v w).status.switches_this_window =
        w.status.switches_this_window + 1) := by
  unfold arb_rest
  split_ifs with h1 h2
  · exact Or.inl rfl
  · exact Or.inl rfl
  · simp only []
    split_ifs with h3
    · rcases execute_switch_switches (select_best_uplink w) v now w with he | he
      · exact Or.inl he
      · exact Or.inr ⟨h2, he⟩
    · exact Or.inl rfl

/-- A full arbitration tick leaves the window counter alone, or — only when it
is still below 3 — credits exactly one switch. -/
theorem arbitrate_switches (cfg : Config) (now : Int) (v : Bool) (w : World) :
    (slowpath_arbitrate cfg now v w).status.switches_this_window =
        w.status.switches_this_window ∨
    (¬ 3 ≤ w.status.switches_this_window ∧
      (slowpath_arbitrate cfg now v w).status.switches_this_window =
        w.status.switches_this_window + 1) := by
  unfold slowpath_arbitrate
  split_ifs with h1 h2
  · exact arb_rest_switches cfg now v _
  · exact Or.inl rfl
  · exact arb_rest_switches cfg now v w

/-- Past the settle and preroll gates, a tick that finds three switches already
credited only raises `flap_suppressed`. -/
theorem arb_rest_flap (cfg : Config) (now : Int) (v : Bool) (w : World)
    (hpre : ¬ (now - w.status.protect_start_us).tdiv 1000 < cfg.preroll_ms)
    (hsw : 3 ≤ w.status.switches_this_window) :
    arb_rest cfg now v w = { w with status := { w.status with flap_suppressed := true } } := by
  unfold arb_rest
  rw [if_neg hpre, if_pos hsw]

/-- `tripwire_fire` opens the window with a zeroed switch counter. -/
theorem tripwire_fire_switches (r : Trigger) (now : Int) (w : World) :
    (tripwire_fire r now w).status.switches_this_window = 0 := rfl

/-- Arbitration ticks keep the window counter at most 3. -/
theorem arb_seq_bound (cfg : Config) (ticks : List (Int × Bool)) (w : World)
    (h : w.status.switches_this_window ≤ 3) :
    (arb_seq cfg ticks w).status.switches_this_window ≤ 3 := by
  induction ticks generalizing w with
  | nil => exact h
  | cons t rest ih =>
    show (arb_seq cfg rest (slowpath_arbitrate cfg t.1 t.2 w)).status.switches_this_window ≤ 3
    apply ih
    rcases arbitrate_switches cfg t.1 t.2 w with he | ⟨hn, he⟩
    · rw [he]
      exact h
    · rw [he]
      omega

/-- Claim C4 (amended) — within a window opened by `tripwire_fire` and evolved
by arbitration ticks alone, the counter never exceeds 3: a tick that has passed
the settle and preroll gates and finds `switches_this_window ≥ 3` only sets
`flap_suppressed` (active uplink, the uplink array and the counter untouched),
and every arbitration tick is monotone in the counter. The cap does NOT hold
against `force:{name}` commands, which call `execute_switch` directly and
credit the counter with no bound check (see the counterexample). -/
theorem claim_C4 (cfg : Config) (w w0 : World) (now now0 : Int) (v : Bool) (r : Trigger)
    (ticks : List (Int × Bool)) :
    ((¬ (w.status.dup_enabled = true ∧ w.status.dup_engaged_at_us = 0 ∧
          (now - w.status.dup_enabled_at_us).tdiv 1000 < DUP_SETTLE_MS)) →
      ¬ (now - w.status.protect_start_us).tdiv 1000 < cfg.preroll_ms →
      3 ≤ w.status.switches_this_window →
      ((slowpath_arbitrate cfg now v w).status.flap_suppressed = true ∧
       (slowpath_arbitrate cfg now v w).status.active_uplink = w.status.active_uplink ∧
       (slowpath_arbitrate cfg now v w).uplinks = w.uplinks ∧
       (slowpath_arbitrate cfg now v w).status.switches_this_window =
         w.status.switches_this_window)) ∧
    (w.status.switches_this_window ≤
      (slowpath_arbitrate cfg now v w).status.switches_this_window) ∧
    ((arb_seq cfg ticks (tripwire_fire r now0 w0)).status.switches_this_window ≤ 3) := by
  refine ⟨?_, ?_, ?_⟩
  · intro hgate hpre hsw
    by_cases hg : w.status.dup_enabled = true ∧ w.status.dup_engaged_at_us = 0
    · have hage : DUP_SETTLE_MS ≤ (now - w.status.dup_enabled_at_us).tdiv 1000 := by
        by_contra hlt
        exact hgate ⟨hg.1, hg.2, not_le.mp hlt⟩
      have h2 := arb_rest_flap cfg now v
        { w with status := { w.status with dup_engaged_at_us := now } } hpre hsw
      unfold slowpath_arbitrate
      rw [if_pos hg, if_pos hage, h2]
      exact ⟨rfl, rfl, rfl, rfl⟩
    · have h2 := arb_rest_flap cfg now v w hpre hsw
      unfold slowpath_arbitrate
      rw [if_neg hg, h2]
      exact ⟨rfl, rfl, rfl, rfl⟩
  · rcases arbitrate_switches cfg now v w with he | ⟨hn, he⟩
    · rw [he]
    · rw [he]
      omega
  · apply arb_seq_bound
    rw [tripwire_fire_switches]
    omega

/-- The window opened by a manual trigger at the initial world. -/
def c4_w0 : World := tripwire_fire .manual 1000 (init_world fun _ => true)

/-- One `force:cell_b` command with successful route verification. -/
def c4_force (w : World) : World := process_one_command (.forceName "cell_b") true true 2000 w

/-- Witness for C4 at `w_dup` (settle pending never matters here: the gate
hypothesis is discharged because `dup_engaged_at_us` keeps `w_dup` in its
enabled-and-unengaged form only when the age is small; at `now = 10^6` the
settle has elapsed), plus the fired window bound with an empty tick list. -/
theorem claim_C4_witness :
    ((slowpath_arbitrate cfg0 1000000 true c4_w0).status.flap_suppressed = true ∧
     (slowpath_arbitrate cfg0 1000000 true c4_w0).status.active_uplink =
        c4_w0.status.active_uplink ∧
     (slowpath_arbitrate cfg0 1000000 true c4_w0).uplinks = c4_w0.uplinks ∧
     (slowpath_arbitrate cfg0 1000000 true c4_w0).status.switches_this_window =
        c4_w0.status.switches_this_window) ∨
    ¬ 3 ≤ c4_w0.status.switches_this_window ∧
    (c4_w0.status.switches_this_window ≤
      (slowpath_arbitrate cfg0 1000000 true c4_w0).status.switches_this_window) ∧
    ((arb_seq cfg0 [(1000000, true)]
        (tripwire_fire .manual 1000 (init_world fun _ => true))).status.switches_this_window
      ≤ 3) :=
  Or.inr ⟨by decide,
    (claim_C4 cfg0 c4_w0 (init_world fun _ => true) 1000000 1000 true .manual
      [(1000000, true)]).2.1,
    (claim_C4 cfg0 c4_w0 (init_world fun _ => true) 1000000 1000 true .manual
      [(1000000, true)]).2.2⟩

/-- Counterexample to C4 as stated: open a window with `tripwire_fire`
(counter zeroed), then process four `force:cell_b` commands — no new window is
entered (the state stays PROTECT), yet the counter reaches 4 > 3, because the
`force:{name}` path calls `execute_switch` with no flap cap. -/
theorem claim_C4_counterexample :
    c4_w0.status.switches_this_window = 0 ∧
    (c4_force (c4_force (c4_force (c4_force c4_w0)))).status.switches_this_window = 4 ∧
    (c4_force (c4_force (c4_force (c4_force c4_w0)))).status.state = .protect ∧
    ¬ (c4_force (c4_force (c4_force (c4_force c4_w0)))).status.switches_this_window ≤ 3 := by
  refine ⟨rfl, by decide, by decide, by decide⟩

/-! ## Loss clamp (C8) -/

/-- The history ring after the poll's append of the new probe. -/
def poll_hist (rtt r1 : ℚ) (now : Int) (u : Uplink) : Fin 100 → Probe :=
  Function.update u.history (ringIdx u.history_idx)
    { rtt_ms := rtt + u.chaos_rtt + u.chaos_jitter * r1
      success := decide (0 < rtt)
      timestamp_us := now }

/-- Generic pair-fold invariant: a step preserving `0 ≤ snd ≤ fst` preserves it
over the whole fold. -/
theorem foldl_pair_inv {α : Type} (l : List α) (step : Int × Int → α → Int × Int)
    (acc : Int × Int)
    (hstep : ∀ a i, 0 ≤ a.2 → a.2 ≤ a.1 → 0 ≤ (step a i).2 ∧ (step a i).2 ≤ (step a i).1)
    (h1 : 0 ≤ acc.2) (h2 : acc.2 ≤ acc.1) :
    0 ≤ (l.foldl step acc).2 ∧ (l.foldl step acc).2 ≤ (l.foldl step acc).1 := by
  induction l generalizing acc with
  | nil => exact ⟨h1, h2⟩
  | cons a rest ih => exact ih _ (hstep acc a h1 h2).1 (hstep acc a h1 h2).2

/-- Generic pair-fold monotonicity of the first component. -/
theorem foldl_pair_fst_mono {α : Type} (l : List α) (step : Int × Int → α → Int × Int)
    (acc : Int × Int) (hstep : ∀ a i, a.1 ≤ (step a i).1) :
    acc.1 ≤ (l.foldl step acc).1 := by
  induction l generalizing acc with
  | nil => exact le_refl _
  | cons a rest ih => exact le_trans (hstep acc a) (ih _)

/-- Generic pair-fold positivity of the first component once one step of the
list strictly increases it. -/
theorem foldl_pair_fst_pos {α : Type} (l : List α) (step : Int × Int → α → Int × Int)
    (acc : Int × Int) (hmono : ∀ a i, a.1 ≤ (step a i).1) (i0 : α)
    (hstrict : ∀ a, a.1 < (step a i0).1) :
    i0 ∈ l → 0 ≤ acc.1 → 0 < (l.foldl step acc).1 := by
  induction l generalizing acc with
  | nil =>
    intro h0 _
    exact absurd h0 (List.not_mem_nil i0)
  | cons a rest ih =>
    intro h0 hacc
    rcases List.mem_cons.mp h0 with h1 | h1
    · subst h1
      exact lt_of_lt_of_le (lt_of_le_of_lt hacc (hstrict acc))
        (foldl_pair_fst_mono rest step _ hmono)
    · exact ih _ h1 (le_trans hacc (hmono acc a))

/-- The loss window has at least as many successes as zero and no more than its
sample count. -/
theorem loss_stats_le (h : Fin 100 → Probe) (idx : Int) :
    0 ≤ (loss_stats h idx).2 ∧ (loss_stats h idx).2 ≤ (loss_stats h idx).1 := by
  unfold loss_stats
  apply foldl_pair_inv
  · intro a i ha1 ha2
    split_ifs <;> (try dsimp only) <;> constructor <;> omega
  · exact le_refl 0
  · exact le_refl 0

/-- With at least one history entry, the loss window is non-empty. -/
theorem loss_stats_fst_pos (h : Fin 100 → Probe) (idx : Int) (hidx : 0 < idx) :
    0 < (loss_stats h idx).1 := by
  unfold loss_stats
  apply foldl_pair_fst_pos _ _ _ ?_ (0 : Int) ?_ ?_ ?_
  · intro a i
    split_ifs <;> (try dsimp only) <;> omega
  · intro a
    rw [if_pos hidx]
    dsimp only
    omega
  · decide
  · exact le_refl 0

/-- The loss formula of `uplink_poll`: within [0, 100] before chaos, clamped
above at 100 after adding chaos, non-negative when the chaos term is. -/
theorem clamp_bounds (st : Int × Int) (c : ℚ) (h1 : 0 < st.1) (h2 : 0 ≤ st.2)
    (h3 : st.2 ≤ st.1) :
    (if 100 < 100 * ((st.1 - st.2 : Int) : ℚ) / (st.1 : ℚ) + c then (100:ℚ)
     else 100 * ((st.1 - st.2 : Int) : ℚ) / (st.1 : ℚ) + c) ≤ 100 ∧
    (0 ≤ c →
      0 ≤ (if 100 < 100 * ((st.1 - st.2 : Int) : ℚ) / (st.1 : ℚ) + c then (100:ℚ)
        else 100 * ((st.1 - st.2 : Int) : ℚ) / (st.1 : ℚ) + c)) := by
  have hd : (0:ℚ) < (st.1 : ℚ) := by exact_mod_cast h1
  have hbase : 0 ≤ 100 * ((st.1 - st.2 : Int) : ℚ) / (st.1 : ℚ) := by
    apply div_nonneg _ (le_of_lt hd)
    have : (0:ℚ) ≤ ((st.1 - st.2 : Int) : ℚ) := by
      push_cast
      have : (st.2 : ℚ) ≤ (st.1 : ℚ) := by exact_mod_cast h3
      linarith
    linarith
  split_ifs with hc
  · exact ⟨le_refl 100, fun _ => by norm_num⟩
  · exact ⟨not_lt.mp hc, fun hcp => add_nonneg hbase hcp⟩

/-- After the (enabled) poll, `loss_pct` is exactly the clamped chaos-adjusted
failure percentage over the freshly appended window. -/
theorem uplink_poll_loss_pct (rtt r1 r2 : ℚ) (cell2 : Cellular) (sl2 : Starlink) (now : Int)
    (u : Uplink) (hen : u.enabled = true) :
    (uplink_poll rtt r1 r2 cell2 sl2 now u).loss_pct =
      (if 0 < (loss_stats (poll_hist rtt r1 now u) (u.history_idx + 1)).1 then
        (if 100 < 100 * (((loss_stats (poll_hist rtt r1 now u) (u.history_idx + 1)).1 -
              (loss_stats (poll_hist rtt r1 now u) (u.history_idx + 1)).2 : Int) : ℚ) /
              ((loss_stats (poll_hist rtt r1 now u) (u.history_idx + 1)).1 : ℚ) + u.chaos_loss
          then (100:ℚ)
          else 100 * (((loss_stats (poll_hist rtt r1 now u) (u.history_idx + 1)).1 -
              (loss_stats (poll_hist rtt r1 now u) (u.history_idx + 1)).2 : Int) : ℚ) /
              ((loss_stats (poll_hist rtt r1 now u) (u.history_idx + 1)).1 : ℚ) + u.chaos_loss)
      else u.loss_pct) := by
  unfold uplink_poll poll_hist
  rw [if_neg (by simp [hen])]
  simp only [apply_ite Uplink.loss_pct, ite_self]

/-- Claim C8 (amended) — after a poll of an enabled uplink, `loss_pct` is
clamped ABOVE at 100, and it is non-negative whenever the chaos injection is
non-negative; a negative `chaos_loss` read from the chaos file can push it
below 0, because the code has no lower clamp (see the counterexample). -/
theorem claim_C8 (rtt r1 r2 : ℚ) (cell2 : Cellular) (sl2 : Starlink) (now : Int) (u : Uplink)
    (hen : u.enabled = true) (hidx : 0 ≤ u.history_idx) :
    (uplink_poll rtt r1 r2 cell2 sl2 now u).loss_pct ≤ 100 ∧
    (0 ≤ u.chaos_loss → 0 ≤ (uplink_poll rtt r1 r2 cell2 sl2 now u).loss_pct) := by
  rw [uplink_poll_loss_pct rtt r1 r2 cell2 sl2 now u hen]
  have hpos : 0 < (loss_stats (poll_hist rtt r1 now u) (u.history_idx + 1)).1 :=
    loss_stats_fst_pos _ _ (by omega)
  have hb := loss_stats_le (poll_hist rtt r1 now u) (u.history_idx + 1)
  rw [if_pos hpos]
  exact clamp_bounds _ u.chaos_loss hpos hb.1 hb.2

/-- The freshly started uplink (empty history) with a negative chaos loss, as
`chaos_read` produces for a chaos file entry `"loss": -50`. -/
def c8_uplink : Uplink := { zero_uplink with enabled := true, chaos_loss := -50 }

/-- Witness for C8: a successful 30 ms probe of `c8_uplink` with the chaos loss
replaced by 0 keeps `loss_pct` within the bounds. -/
theorem claim_C8_witness :
    (uplink_poll 30 0 0 zero_cellular zero_starlink 0
        { c8_uplink with chaos_loss := 0 }).loss_pct ≤ 100 ∧
    (0 ≤ ({ c8_uplink with chaos_loss := 0 } : Uplink).chaos_loss →
      0 ≤ (uplink_poll 30 0 0 zero_cellular zero_starlink 0
        { c8_uplink with chaos_loss := 0 }).loss_pct) :=
  claim_C8 30 0 0 zero_cellular zero_starlink 0 { c8_uplink with chaos_loss := 0 }
    (by decide) (by decide)

/-- Counterexample to C8 as stated: polling `c8_uplink` with one successful
30 ms probe (base loss 0) and `chaos_loss = -50` leaves `loss_pct = -50`,
outside [0, 100] — only the upper bound is clamped. -/
theorem claim_C8_counterexample :
    (uplink_poll 30 0 0 zero_cellular zero_starlink 0 c8_uplink).loss_pct = -50 ∧
    ((-50 : ℚ) < 0) := by
  have hst : loss_stats (poll_hist 30 0 0 c8_uplink) (c8_uplink.history_idx + 1) = (1, 1) := by
    decide
  constructor
  · rw [uplink_poll_loss_pct 30 0 0 zero_cellular zero_starlink 0 c8_uplink (by decide), hst]
    norm_num [c8_uplink, zero_uplink]
  · norm_num

/-! ## The single-active-uplink invariant (C2) -/

/-- The inductive invariant: the `is_active` flag is set exactly on
`active_uplink`. -/
def ActiveInv (w : World) : Prop :=
  ∀ i : Fin 6, ((w.uplinks i).is_active = true ↔ i = w.status.active_uplink)

/-- Transport of the invariant along an operation that changes neither the
flags nor `active_uplink`. -/
theorem activeInv_frame {w w2 : World} (h : ActiveInv w)
    (hu : ∀ i, (w2.uplinks i).is_active = (w.uplinks i).is_active)
    (ha : w2.status.active_uplink = w.status.active_uplink) : ActiveInv w2 := by
  intro i
  rw [hu i, ha]
  exact h i

/-- `execute_switch` preserves the invariant: on verification failure nothing
changes; on success the old flag is cleared and the target's set in the same
critical section that moves `active_uplink`. -/
theorem execute_switch_activeInv (t : Fin 6) (v : Bool) (now : Int) (w : World)
    (h : ActiveInv w) : ActiveInv (execute_switch t v now w) := by
  unfold execute_switch
  split_ifs with hv
  · exact h
  · intro i
    dsimp only
    by_cases hit : i = t
    · subst hit
      simp [Function.update_same]
    · rw [Function.update_noteq hit]
      by_cases hio : i = w.status.active_uplink
      · subst hio
        rw [Function.update_same]
        simp [hit]
      · rw [Function.update_noteq hio]
        exact iff_of_false (fun hh => hio ((h i).mp hh)) hit

/-- `dup_enable` never touches the uplink array. -/
theorem dup_enable_uplinks (s d : String) (now : Int) (w : World) :
    (dup_enable s d now w).uplinks = w.uplinks := by
  unfold dup_enable
  split <;> rfl

/-- `dup_enable` never moves `active_uplink`. -/
theorem dup_enable_active (s d : String) (now : Int) (w : World) :
    (dup_enable s d now w).status.active_uplink = w.status.active_uplink := by
  unfold dup_enable
  split <;> rfl

/-- Mutating one uplink through a flag-preserving function preserves all
`is_active` flags. -/
theorem update_uplink_is_active (w : World) (i : Fin 6) (f : Uplink → Uplink)
    (hf : ∀ u, (f u).is_active = u.is_active) :
    ∀ j, (((update_uplink w i f).uplinks j)).is_active = ((w.uplinks j)).is_active := by
  intro j
  unfold update_uplink
  dsimp only
  by_cases hj : j = i
  · subst hj
    rw [Function.update_same, hf]
  · rw [Function.update_noteq hj]

/-- `uplink_poll` never writes `is_active`. -/
theorem uplink_poll_is_active (rtt r1 r2 : ℚ) (cell2 : Cellular) (sl2 : Starlink) (now : Int)
    (u : Uplink) : (uplink_poll rtt r1 r2 cell2 sl2 now u).is_active = u.is_active := by
  unfold uplink_poll
  simp only [apply_ite Uplink.is_active, ite_self]

/-- `chaos_read` never writes `is_active` or `active_uplink`. -/
theorem chaos_read_activeInv (vals : Option (Fin 6 → Option ChaosEntry)) (w : World)
    (h : ActiveInv w) : ActiveInv (chaos_read vals w) := by
  cases vals with
  | none => exact h
  | some f =>
    refine activeInv_frame h (fun i => ?_) rfl
    unfold chaos_read
    dsimp only
    cases f i <;> rfl

/-- `prediction_tick` never writes `is_active` or `active_uplink`. -/
theorem prediction_tick_activeInv (w : World) (h : ActiveInv w) :
    ActiveInv (prediction_tick w) := by
  refine activeInv_frame h (fun i => ?_) rfl
  unfold prediction_tick
  dsimp only
  split_ifs <;> rfl

/-- `tripwire_fire` only calls `dup_enable` and rewrites status fields other
than `active_uplink`. -/
theorem tripwire_fire_activeInv (r : Trigger) (now : Int) (w : World) (h : ActiveInv w) :
    ActiveInv (tripwire_fire r now w) := by
  refine activeInv_frame h (fun i => ?_) ?_
  · unfold tripwire_fire
    dsimp only
    split_ifs with hs
    · rw [dup_enable_uplinks]
    · rfl
  · unfold tripwire_fire
    dsimp only
    split_ifs with hs
    · rw [dup_enable_active]
    · rfl

/-- The arbitration tail preserves the invariant. -/
theorem arb_rest_activeInv (cfg : Config) (now : Int) (v : Bool) (w : World)
    (h : ActiveInv w) : ActiveInv (arb_rest cfg now v w) := by
  unfold arb_rest
  split_ifs with h1 h2
  · exact h
  · exact h
  · simp only []
    split_ifs with h3
    · exact execute_switch_activeInv (select_best_uplink w) v now w h
    · exact h

/-- A full arbitration tick preserves the invariant. -/
theorem slowpath_arbitrate_activeInv (cfg : Config) (now : Int) (v : Bool) (w : World)
    (h : ActiveInv w) : ActiveInv (slowpath_arbitrate cfg now v w) := by
  unfold slowpath_arbitrate
  split_ifs with h1 h2
  · exact arb_rest_activeInv cfg now v _ h
  · exact h
  · exact arb_rest_activeInv cfg now v w h

/-- `protection_tick` only rewrites timers, display fields and the duplication
flag. -/
theorem protection_tick_activeInv (cfg : Config) (now : Int) (w : World) (h : ActiveInv w) :
    ActiveInv (protection_tick cfg now w) := by
  unfold protection_tick
  simp only []
  split_ifs <;> exact h

/-- Every command dispatch preserves the invariant. -/
theorem process_one_command_activeInv (cmd : Cmd) (v c8 : Bool) (now : Int) (w : World)
    (h : ActiveInv w) : ActiveInv (process_one_command cmd v c8 now w) := by
  cases cmd with
  | modeCmd m =>
    cases m with
    | training => exact h
    | tripwire => exact h
    | mirror =>
      dsimp only [process_one_command]
      unfold dup_enable
      split <;> exact h
  | forceAuto =>
    dsimp only [process_one_command]
    split_ifs with hb
    · exact execute_switch_activeInv _ v now _ h
    · exact h
  | forceName name =>
    dsimp only [process_one_command]
    cases hfind : find_uplink_by_name name with
    | none => exact h
    | some i =>
      have h1 : ActiveInv (update_uplink w i fun u =>
          { u with force_failed := false, available := true }) :=
        activeInv_frame h (update_uplink_is_active w i _ (fun u => rfl)) rfl
      exact execute_switch_activeInv i v now _ h1
  | manualTrigger => exact tripwire_fire_activeInv .manual now w h
  | c8000Cmd ctrl =>
    dsimp only [process_one_command]
    split_ifs <;> exact h
  | enableCmd name =>
    dsimp only [process_one_command]
    cases hfind : find_uplink_by_name name with
    | none => exact h
    | some i => exact activeInv_frame h (update_uplink_is_active w i _ (fun u => rfl)) rfl
  | disableCmd name =>
    dsimp only [process_one_command]
    cases hfind : find_uplink_by_name name with
    | none => exact h
    | some i => exact activeInv_frame h (update_uplink_is_active w i _ (fun u => rfl)) rfl
  | failCmd name =>
    dsimp only [process_one_command]
    cases hfind : find_uplink_by_name name with
    | none => exact h
    | some i => exact activeInv_frame h (update_uplink_is_active w i _ (fun u => rfl)) rfl
  | unfailCmd name =>
    dsimp only [process_one_command]
    cases hfind : find_uplink_by_name name with
    | none => exact h
    | some i => exact activeInv_frame h (update_uplink_is_active w i _ (fun u => rfl)) rfl
  | unknownCmd => exact h

/-- Every transition of the modelled daemon preserves the invariant. -/
theorem step_activeInv {w w2 : World} (hs : Step w w2) (h : ActiveInv w) : ActiveInv w2 := by
  cases hs with
  | poll i rtt r1 r2 cell2 sl2 now w =>
    exact activeInv_frame h
      (update_uplink_is_active w i _ (fun u => uplink_poll_is_active rtt r1 r2 cell2 sl2 now u))
      rfl
  | chaos vals w => exact chaos_read_activeInv vals w h
  | predict w => exact prediction_tick_activeInv w h
  | fire reason now w => exact tripwire_fire_activeInv reason now w h
  | arbitrate cfg now v w => exact slowpath_arbitrate_activeInv cfg now v w h
  | protect cfg now w => exact protection_tick_activeInv cfg now w h
  | command cmd v c8 now w => exact process_one_command_activeInv cmd v c8 now w h
  | dupDisable w => exact h

/-- At startup only `cell_a` carries the flag and `active_uplink` is 0. -/
theorem activeInv_init (cfgE : Fin 6 → Bool) : ActiveInv (init_world cfgE) := by
  intro i
  have hup : ((init_world cfgE).uplinks i).is_active = (uplinks_init i).is_active := by
    show ((if cfgE i = false then { uplinks_init i with enabled := false }
        else uplinks_init i) : Uplink).is_active = (uplinks_init i).is_active
    split_ifs <;> rfl
  have hact : (init_world cfgE).status.active_uplink = 0 := rfl
  rw [hup, hact]
  fin_cases i <;> simp [uplinks_init, zero_uplink]

/-- Claim C2 — at every reachable state of the modelled daemon exactly one
uplink has `is_active = true` (namely `active_uplink`): initialization marks
only `cell_a`, and the only writer of the flags, `execute_switch` (also behind
the `force:` commands), either moves flag and `active_uplink` together or, on
verification failure, changes nothing. -/
theorem claim_C2 (cfgE : Fin 6 → Bool) (w : World) (h : Reachable cfgE w) :
    ∃! i : Fin 6, (w.uplinks i).is_active = true := by
  have h2 : Relation.ReflTransGen Step (init_world cfgE) w := h
  clear h
  have hinv : ActiveInv w := by
    induction h2 with
    | refl => exact activeInv_init cfgE
    | tail hab hbc ih => exact step_activeInv hbc ih
  exact ⟨w.status.active_uplink, (hinv w.status.active_uplink).mpr rfl,
    fun j hj => (hinv j).mp hj⟩

/-- Witness for C2 at the initial world itself. -/
theorem claim_C2_witness :
    ∃! i : Fin 6, ((init_world fun _ => true).uplinks i).is_active = true :=
  claim_C2 (fun _ => true) (init_world fun _ => true) Relation.ReflTransGen.refl

/-! ## Protection without duplication (C10) -/

/-- When no other uplink is enabled and available, the wrapping scan comes back
to the active uplink itself. -/
theorem find_secondary_none (ok : Fin 6 → Bool) (active : Fin 6)
    (h : ∀ j : Fin 6, j ≠ active → ok j = false) :
    find_secondary ok active = active := by
  have hok : ok = fun j => if j = active then ok active else false := by
    funext j
    by_cases hj : j = active
    · simp [hj]
    · simp [hj, h j hj]
  rw [hok]
  have hfin : ∀ (a : Fin 6) (b : Bool),
      find_secondary (fun j => if j = a then b else false) a = a := by decide
  exact hfin active (ok active)

/-- Claim C10 — if the tripwire fires while no other uplink is enabled and
available, `dup_enable` is never called: the duplication flags stay exactly as
they were (`dup_enabled` still false), yet the state still becomes PROTECT with
the window counters reset and `protect_start_us` stamped. Because the settle
gate of the arbitration is conditioned on `dup_enabled = true`, a later
arbitration tick in such a window (`dup_enabled = false`, `dup_engaged_at_us`
still 0) can commit a verified switch with no duplication installed and no
settle wait — `dup_engaged_at_us` is still 0 after the switch. -/
theorem claim_C10 (w w2 : World) (r : Trigger) (now now2 : Int) (cfg : Config)
    (hno : ∀ j : Fin 6, j ≠ w.status.active_uplink → uplink_ok w j = false)
    (hdup : w.status.dup_enabled = false)
    (hdup2 : w2.status.dup_enabled = false) (heng2 : w2.status.dup_engaged_at_us = 0)
    (hpre2 : ¬ (now2 - w2.status.protect_start_us).tdiv 1000 < cfg.preroll_ms)
    (hflap2 : ¬ 3 ≤ w2.status.switches_this_window)
    (hbest2 : select_best_uplink w2 ≠ w2.status.active_uplink) :
    ((tripwire_fire r now w).status.dup_enabled = false ∧
     (tripwire_fire r now w).status.dup_enabled_at_us = w.status.dup_enabled_at_us ∧
     (tripwire_fire r now w).status.dup_engaged_at_us = w.status.dup_engaged_at_us ∧
     (tripwire_fire r now w).status.state = .protect ∧
     (tripwire_fire r now w).status.switches_this_window = 0 ∧
     (tripwire_fire r now w).status.protect_start_us = now ∧
     (tripwire_fire r now w).status.flap_suppressed = false ∧
     (tripwire_fire r now w).status.last_clean_us = 0) ∧
    ((slowpath_arbitrate cfg now2 true w2).status.active_uplink = select_best_uplink w2 ∧
     (slowpath_arbitrate cfg now2 true w2).status.switches_this_window =
        w2.status.switches_this_window + 1 ∧
     (slowpath_arbitrate cfg now2 true w2).status.dup_enabled = false ∧
     (slowpath_arbitrate cfg now2 true w2).status.dup_engaged_at_us = 0) := by
  constructor
  · have hsec : find_secondary (uplink_ok w) w.status.active_uplink =
        w.status.active_uplink := find_secondary_none _ _ hno
    unfold tripwire_fire
    dsimp only
    rw [if_neg (by simp [hsec])]
    exact ⟨hdup, rfl, rfl, rfl, rfl, rfl, rfl, rfl⟩
  · unfold slowpath_arbitrate
    rw [if_neg (by simp [hdup2])]
    unfold arb_rest
    rw [if_neg hpre2, if_neg hflap2]
    simp only []
    rw [if_pos hbest2]
    unfold execute_switch
    rw [if_neg (by simp)]
    exact ⟨rfl, rfl, hdup2, heng2⟩

/-- A window state with the active `cell_a` degraded, duplication never
enabled, the preroll elapsed, and only the fiber uplink `fb` available. -/
def c10_w2 : World :=
  { status := (init_world fun _ => true).status
    uplinks := fun i =>
      if i.val = 5 then { (init_world fun _ => true).uplinks i with available := true }
      else (init_world fun _ => true).uplinks i }

/-- Witness for C10: the initial world has no available secondary, so a manual
trigger at time 1000 enters PROTECT without duplication; one second later, with
`fb` the only available uplink, the arbitration tick commits a switch while
`dup_enabled` is still false and `dup_engaged_at_us` is still 0. -/
theorem claim_C10_witness :
    ((tripwire_fire .manual 1000 (init_world fun _ => true)).status.dup_enabled = false ∧
     (tripwire_fire .manual 1000 (init_world fun _ => true)).status.dup_enabled_at_us =
        (init_world fun _ => true).status.dup_enabled_at_us ∧
     (tripwire_fire .manual 1000 (init_world fun _ => true)).status.dup_engaged_at_us =
        (init_world fun _ => true).status.dup_engaged_at_us ∧
     (tripwire_fire .manual 1000 (init_world fun _ => true)).status.state = .protect ∧
     (tripwire_fire .manual 1000 (init_world fun _ => true)).status.switches_this_window = 0 ∧
     (tripwire_fire .manual 1000 (init_world fun _ => true)).status.protect_start_us = 1000 ∧
     (tripwire_fire .manual 1000 (init_world fun _ => true)).status.flap_suppressed = false ∧
     (tripwire_fire .manual 1000 (init_world fun _ => true)).status.last_clean_us = 0) ∧
    ((slowpath_arbitrate cfg0 1000000 true c10_w2).status.active_uplink =
        select_best_uplink c10_w2 ∧
     (slowpath_arbitrate cfg0 1000000 true c10_w2).status.switches_this_window =
        c10_w2.status.switches_this_window + 1 ∧
     (slowpath_arbitrate cfg0 1000000 true c10_w2).status.dup_enabled = false ∧
     (slowpath_arbitrate cfg0 1000000 true c10_w2).status.dup_engaged_at_us = 0) :=
  claim_C10 (init_world fun _ => true) c10_w2 .manual 1000 1000000 cfg0
    (by decide) (by decide) (by decide) (by decide) (by decide) (by decide)
    (by
      norm_num [select_best_uplink, sel_go, fin6, score, c10_w2, init_world, uplinks_init,
        zero_uplink, zero_cellular, zero_starlink, zero_status, fin6_val_two, fin6_val_three,
        fin6_val_four, fin6_val_five,
        (by decide : ¬ UplinkType.fiber = UplinkType.lte)]
      decide)

end PathSteer
